import Mathlib

/-
  Formal model of the niamoto-core data-mart dimension engine.

  Shallow embedding of the code in:
    src/niamoto/data_marts/dimensions/base_dimension.py
    src/niamoto/data_marts/dimensions/dimension_manager.py
    src/niamoto/data_marts/dimensions/raster_dimension.py
    src/niamoto/data_marts/dimensions/taxon_dimension.py
    src/niamoto/data_marts/dimensional_model.py

  Database state (schema catalog + registry tables) is modelled explicitly;
  SQLAlchemy column types are an enumeration of the types the code uses;
  dataframes are lists of indexed rows whose cells are optional values
  (none models a pandas null).
-/

namespace Niamoto

/-- SQLAlchemy column types occurring in the repository.  The sentinel table
NS_VALUES in base_dimension.py is keyed on the exact python type of the
column type object, so the embedding enumerates those types. -/
inductive SAType where
  | varchar
  | numeric
  | text
  | string
  | integer
  | float
  | dateTime
  | geometry
  | geography
deriving DecidableEq, Repr

/-- Cell values of a dataframe / dimension table.  Numbers are modelled as
integers (no claim computes with fractional values); nan is the pandas
not-a-number marker, kept distinct from every ordinary value. -/
inductive Value where
  | str (s : String)
  | num (n : Int)
  | nan
deriving DecidableEq, Repr

/-- Raster bucket cut-points: cuts = (points, labels) with
labels.length = points.length + 1 (asserted in RasterDimension.__init__). -/
structure Cuts where
  points : List Int
  labels : List String
deriving DecidableEq, Repr

/-- Values stored in the open-ended properties dict of a dimension. -/
inductive PropVal where
  | cutsV (c : Cuts)
  | labelsV (l : List (String × String))
  | strV (s : String)
deriving DecidableEq, Repr

/-- The properties dict is an insertion-ordered string-keyed mapping. -/
abbrev Props := List (String × PropVal)

/-- Insertion-ordered dict assignment: replace the value when the key is
present, append otherwise (python dict update semantics). -/
def dictSet (m : List (String × PropVal)) (k : String) (v : PropVal) :
    List (String × PropVal) :=
  if (m.map Prod.fst).contains k then
    m.map (fun p => if p.1 = k then (k, v) else p)
  else
    m ++ [(k, v)]

/-- Kind tag of a dimension instance, standing for its python class.
Generic subclasses of BaseDimension carry their own key and description
(BaseDimension itself raises NotImplementedError from get_key, so it is
never registered nor persisted). -/
inductive DimensionType where
  | taxon
  | raster
  | generic (key : String) (descr : String)
deriving DecidableEq, Repr

/-- The get_key classmethod of each dimension class. -/
def get_key : DimensionType → String
  | .taxon => "TAXON_DIMENSION"
  | .raster => "RASTER_DIMENSION"
  | .generic k _ => k

/-- The get_description classmethod of each dimension class. -/
def get_description : DimensionType → String
  | .taxon => "Taxon dimension."
  | .raster => "Raster dimension, values are extracted from a registered raster."
  | .generic _ d => d

/-- A schema column: name plus SQLAlchemy type. -/
structure SAColumn where
  name : String
  type : SAType
deriving DecidableEq, Repr

/-- In-memory dimension instance (BaseDimension and subclasses).  The
surrogate primary key column (PK_COLUMN_NAME = 'id') is implicit, as in the
source, where it is created automatically.  The cuts field is the
raster-specific self.cuts attribute (none for other kinds). -/
structure Dimension where
  name : String
  columns : List SAColumn
  label_col : String
  properties : Props
  column_labels : List (String × String)
  dtype : DimensionType
  cuts : Option Cuts
deriving DecidableEq, Repr

/-- PK_COLUMN_NAME from BaseDimension. -/
def PK_COLUMN_NAME : String := "id"

/-- NS_VALUES from BaseDimension: the sentinel declared for a column type,
keyed on the exact type (no subtype lookup in the source dict). -/
def NS_VALUES : SAType → Option Value
  | .varchar => some (.str "NS")
  | .numeric => some .nan
  | .text => some (.str "NS")
  | .string => some (.str "NS")
  | _ => none

/-- DEFAULT_NS_VALUE from BaseDimension (pd.np.nan). -/
def DEFAULT_NS_VALUE : Value := .nan

/-- Sentinel chosen for a column in BaseDimension.populate: the declared
NS value when the column type is a key of NS_VALUES, the default otherwise. -/
def nsValue (t : SAType) : Value :=
  match NS_VALUES t with
  | some v => v
  | none => DEFAULT_NS_VALUE

/-- BaseDimension.__init__: records the arguments and stores column_labels
under the column_labels key of the properties dict. -/
def BaseDimension.init (name : String) (columns : List SAColumn)
    (label_col : String) (properties : Props)
    (column_labels : List (String × String)) (dtype : DimensionType)
    (cuts : Option Cuts) : Dimension :=
  { name := name
    columns := columns
    label_col := label_col
    properties := dictSet properties "column_labels" (.labelsV column_labels)
    column_labels := column_labels
    dtype := dtype
    cuts := cuts }

/-- A persisted row of the dimension registry table
(name, dimension_type_key, label_column, date_create, properties);
the surrogate id column is irrelevant to the claims and omitted. -/
structure RegistryRow where
  name : String
  dimension_type_key : String
  label_column : String
  date_create : Nat
  properties : Props
deriving DecidableEq, Repr

/-- Observable database state for the dimension engine: the table names
present in the dimensions schema catalog, and the dimension registry rows. -/
structure DBState where
  tables : List String
  dimension_registry : List RegistryRow
deriving DecidableEq, Repr

/-- BaseDimension.is_created: inspects the live schema catalog for a table
named like the dimension. -/
def is_created (st : DBState) (d : Dimension) : Bool :=
  st.tables.contains d.name

/-- BaseDimension.create_dimension: when the dimension already exists, log a
warning and skip (the Bool result records that the warning path ran);
otherwise, inside one transaction, create the table and insert the registry
row {name, dimension_type_key, label_column, date_create, properties}. -/
def create_dimension (st : DBState) (d : Dimension) (now : Nat) :
    DBState × Bool :=
  if is_created st d then
    (st, true)
  else
    ({ tables := st.tables ++ [d.name]
       dimension_registry := st.dimension_registry ++
         [{ name := d.name
            dimension_type_key := get_key d.dtype
            label_column := d.label_col
            date_create := now
            properties := d.properties }] },
     false)

/-- Transactional run of the create DDL block: the two sub-operations
(table creation, registry insert) are guarded by one transaction, so the
state advances only when both succeed, and otherwise rolls back whole. -/
def create_dimension_tx (st : DBState) (d : Dimension) (now : Nat)
    (table_create_ok insert_ok : Bool) : DBState :=
  if is_created st d then
    st
  else if table_create_ok && insert_ok then
    (create_dimension st d now).1
  else
    st

/-- BaseDimension.drop_dimension: when the dimension does not exist, log a
warning and skip; otherwise, inside one transaction, drop the table and
delete every registry row bearing the dimension name. -/
def drop_dimension (st : DBState) (d : Dimension) : DBState × Bool :=
  if !(is_created st d) then
    (st, true)
  else
    ({ tables := st.tables.filter (fun t => t ≠ d.name)
       dimension_registry :=
         st.dimension_registry.filter (fun r => r.name ≠ d.name) },
     false)

/-- Transactional run of the drop DDL block: table drop and registry delete
commit together or not at all. -/
def drop_dimension_tx (st : DBState) (d : Dimension)
    (table_drop_ok delete_ok : Bool) : DBState :=
  if !(is_created st d) then
    st
  else if table_drop_ok && delete_ok then
    (drop_dimension st d).1
  else
    st

/-- A row of the input dataframe handed to BaseDimension.populate: the
pandas index value plus the cells, keyed by column name; a cell holding
none models a pandas null.  The source assumes the dataframe columns are a
superset of the declared dimension columns. -/
structure Row where
  idx : Int
  cells : List (String × Option Value)
deriving DecidableEq, Repr

/-- Tabular input batch. -/
abbrev DataFrame := List Row

/-- Cell of a row under a column name (none when the cell is null or the
column absent; the source assumes declared columns are always present). -/
def cellValue (r : Row) (c : String) : Option Value :=
  match r.cells.lookup c with
  | some v => v
  | none => none

/-- Maximum of a pandas integer index (only invoked on nonempty input, as
in the source where it is guarded by len(dataframe.index) > 0). -/
def indexMax : List Int → Int
  | [] => 0
  | x :: xs => xs.foldl max x

/-- Serialization of one dataframe row by populate: the index value first
(pandas to_csv emits the index as the leading column), then the cells of
the declared columns in order, nulls replaced by the per-column sentinel
(the fillna call with the ns dict). -/
def fillRow (cols : List SAColumn) (r : Row) : Int × List Value :=
  (r.idx, cols.map (fun c =>
    match cellValue r c.name with
    | some v => v
    | none => nsValue c.type))

/-- The CSV batch streamed to the COPY statement by BaseDimension.populate:
the fillna-serialized input rows, then, when append_ns_row is set, one
synthetic NS row whose index is dataframe.index.max() + 1 on a nonempty
input and 0 otherwise, and whose every declared column holds that column
type's sentinel. -/
def populate_csv (cols : List SAColumn) (df : DataFrame)
    (append_ns_row : Bool) : List (Int × List Value) :=
  let main := df.map (fillRow cols)
  if append_ns_row then
    let idx : Int :=
      if df.length > 0 then indexMax (df.map (fun r => r.idx)) + 1 else 0
    main ++ [(idx, cols.map (fun c => nsValue c.type))]
  else
    main

/-- Effect of BaseDimension.populate on the dimension table rows: the COPY
statement appends the streamed batch to whatever rows the table holds. -/
def populate_table (rows : List (Int × List Value)) (cols : List SAColumn)
    (df : DataFrame) (append_ns_row : Bool) : List (Int × List Value) :=
  rows ++ populate_csv cols df append_ns_row

/-- Column list of the COPY statement built by populate:
the primary key name followed by the declared column names. -/
def populate_copy_columns (cols : List SAColumn) : List String :=
  PK_COLUMN_NAME :: cols.map (fun c => c.name)

/-- Bool form of the frozen C4 reading of the synthetic key: the key the
dimension-relative wording predicts (0 when the dimension holds no rows
once the batch has landed, current maximum key + 1 otherwise), compared
with the key the code actually appends. -/
def ns_key_claim_check (prior : List (Int × List Value))
    (cols : List SAColumn) (df : DataFrame) : Bool :=
  let current := populate_table prior cols df false
  let claimed : Int :=
    if current.length = 0 then 0
    else indexMax (current.map Prod.fst) + 1
  ((populate_table prior cols df true).getLast?.map Prod.fst) = some claimed

/-- Python exceptions relevant to the embedded paths. -/
inductive PyError where
  | typeError
  | keyError (k : String)
  | dimensionNotRegistered (name : String)
  | assertionError
deriving DecidableEq, Repr

/-- TaxonDimension.__init__: fixed column set (full_name, rank_name, rank,
then one lowercased column per TaxonRankEnum member), label column
full_name. -/
def TaxonDimension.init (name : String) : Dimension :=
  BaseDimension.init name
    ([⟨"full_name", .string⟩, ⟨"rank_name", .string⟩, ⟨"rank", .string⟩] ++
      [⟨"regnum", .string⟩, ⟨"phylum", .string⟩, ⟨"classis", .string⟩,
       ⟨"ordo", .string⟩, ⟨"familia", .string⟩, ⟨"genus", .string⟩,
       ⟨"species", .string⟩, ⟨"infraspecies", .string⟩])
    "full_name" [] [] .taxon none

/-- TaxonDimension.load: rebuilds the dimension from its name alone. -/
def TaxonDimension.load (dimension_name : String) (_label_col : String) :
    Dimension :=
  TaxonDimension.init dimension_name

/-- RasterDimension.__init__: raw value and pixel_count columns, plus a
derived category column exactly when cuts are configured; asserts
len(labels) = len(points) + 1; stores the cuts in the properties dict;
label column is the raster name. -/
def RasterDimension.init (raster_name : String) (cuts : Option Cuts) :
    Except PyError Dimension :=
  match cuts with
  | none =>
      .ok (BaseDimension.init raster_name
        [⟨raster_name, .float⟩, ⟨"pixel_count", .integer⟩]
        raster_name [] [] .raster none)
  | some c =>
      if c.labels.length = c.points.length + 1 then
        .ok (BaseDimension.init raster_name
          [⟨raster_name, .float⟩, ⟨"pixel_count", .integer⟩,
           ⟨"category", .string⟩]
          raster_name [("cuts", .cutsV c)] [] .raster (some c))
      else
        .error .assertionError

/-- RasterDimension.load: extracts the cuts entry of the properties dict
when present, then rebuilds through the constructor. -/
def RasterDimension.load (dimension_name : String) (_label_col : String)
    (properties : Props) : Except PyError Dimension :=
  let cuts : Option Cuts :=
    match properties.lookup "cuts" with
    | some (.cutsV c) => some c
    | _ => none
  RasterDimension.init dimension_name cuts

/-- Arguments RasterDimension.populate_from_publisher forwards to the data
source: the raster name positionally and the configured cuts keyword. -/
def raster_publisher_args (d : Dimension) : String × Option Cuts :=
  (d.name, d.cuts)

/-- An entry of DIMENSION_TYPE_REGISTRY: the loader classmethod of the
registered class (the load signatures default properties to the empty
dict) and the class description. -/
structure RegistryEntry where
  load : String → String → Props → Except PyError Dimension
  description : String

/-- DIMENSION_TYPE_REGISTRY as populated by DimensionMeta for the dimension
classes present under src (BaseDimension is skipped because its get_key
raises NotImplementedError). -/
def DIMENSION_TYPE_REGISTRY : List (String × RegistryEntry) :=
  [("TAXON_DIMENSION",
    { load := fun n l _ => .ok (TaxonDimension.load n l)
      description := get_description .taxon }),
   ("RASTER_DIMENSION",
    { load := RasterDimension.load
      description := get_description .raster })]

/-- First registry row matching a name (SELECT ... WHERE name = n with
fetchone). -/
def find_registry_row (st : DBState) (name : String) : Option RegistryRow :=
  st.dimension_registry.find? (fun r => r.name = name)

/-- DimensionManager.get_dimension: selects dimension_type_key and
label_column of the row named like the dimension, then calls the loader of
the type-registry entry.  When no row exists, fetchone returns None and the
tuple unpacking raises TypeError.  When the type key is absent from the
in-process registry, the subscript raises KeyError.  The properties column
is neither selected nor forwarded, so each loader runs on its default
empty properties dict. -/
def get_dimension (st : DBState) (dimension_name : String) :
    Except PyError Dimension :=
  match find_registry_row st dimension_name with
  | none => .error .typeError
  | some row =>
      match DIMENSION_TYPE_REGISTRY.lookup row.dimension_type_key with
      | none => .error (.keyError row.dimension_type_key)
      | some entry => entry.load dimension_name row.label_column []

/-- DimensionManager.assert_dimension_is_registered: counts the registry
rows matching the name and raises DimensionNotRegisteredError when the
count is zero. -/
def assert_dimension_is_registered (st : DBState) (dimension_name : String) :
    Except PyError Unit :=
  if (st.dimension_registry.filter (fun r => r.name = dimension_name)).length
      = 0 then
    .error (.dimensionNotRegistered dimension_name)
  else
    .ok ()

/-- Sequential registration check over the dimension names referenced by a
fact table: the first unregistered name aborts the run. -/
def assert_all_registered (st : DBState) :
    List String → Except PyError Unit
  | [] => .ok ()
  | n :: rest =>
      match assert_dimension_is_registered st n with
      | .error e => .error e
      | .ok _ => assert_all_registered st rest

/-- A persisted row of the fact_table_registry table (see the alembic
migration c017cc9221b0): name, date_create, nullable date_update. -/
structure FactTableRegistryRow where
  name : String
  date_create : Nat
  date_update : Option Nat
deriving DecidableEq, Repr

/-- Full data-mart state: dimension-side state plus the fact-table schema
catalog and registry. -/
structure MartState where
  dims : DBState
  fact_tables : List String
  fact_table_registry : List FactTableRegistryRow
deriving DecidableEq, Repr

/-- Modelled from the spec: BaseFactTable creation is code of this
repository missing from src (only its callers and tests are present).  Per
the spec, creating a fact table validates through
DimensionManager.assert_dimension_is_registered that every referenced
dimension is registered, rejecting with DimensionNotRegistered before any
DDL executes; otherwise it creates the physical table and inserts the
fact-table registry row.  An error result leaves the state untouched. -/
def create_fact_table (st : MartState) (name : String)
    (dimension_names : List String) (now : Nat) :
    MartState × Option PyError :=
  match assert_all_registered st.dims dimension_names with
  | .error e => (st, some e)
  | .ok _ =>
      ({ st with
          fact_tables := st.fact_tables ++ [name]
          fact_table_registry := st.fact_table_registry ++
            [{ name := name, date_create := now, date_update := none }] },
       none)

/-- EXCLUDED_DIMENSION_ATTRIBUTE_TYPES of BaseDimension: geometry-typed
columns never appear in cube attribute lists. -/
def excluded_attribute_type : SAType → Bool
  | .geometry => true
  | .geography => true
  | _ => false

/-- An attribute entry of a cube level: the base class emits name/label
dicts while the raster category levels emit plain strings, so the python
lists are heterogeneous. -/
inductive CubeAttr where
  | labeled (name : String) (label : String)
  | plain (s : String)
deriving DecidableEq, Repr

/-- A level of the cube descriptor fragment. -/
structure CubeLevel where
  name : String
  attributes : List CubeAttr
deriving DecidableEq, Repr

/-- A hierarchy of the cube descriptor fragment. -/
structure CubeHierarchy where
  name : String
  levels : List String
deriving DecidableEq, Repr

/-- BaseDimension.get_cubes_attributes: the primary key name followed by
every non-excluded declared column, each rendered as a name/label pair
(label defaulting to the name when no column label is recorded). -/
def get_cubes_attributes (d : Dimension) : List CubeAttr :=
  let dim_attributes :=
    PK_COLUMN_NAME ::
      (d.columns.filter (fun c => !(excluded_attribute_type c.type))).map
        (fun c => c.name)
  dim_attributes.map (fun n =>
    .labeled n ((d.column_labels.lookup n).getD n))

/-- One end of a cube join (schema, table, column). -/
structure JoinEnd where
  schema : String
  table : String
  column : String
deriving DecidableEq, Repr

/-- A join of the cube descriptor. -/
structure CubeJoin where
  master : JoinEnd
  detail : JoinEnd
deriving DecidableEq, Repr

/-- BaseDimension.get_cubes_joins: the base contract contributes no extra
joins (no class under src overrides it). -/
def get_cubes_joins (_d : Dimension) : List CubeJoin := []

/-- BaseDimension.get_cubes_mappings: the base contract contributes no
extra mappings (no class under src overrides it). -/
def get_cubes_mappings (_d : Dimension) : List (String × String) := []

/-- Cube levels of a dimension.  RasterDimension overrides the base single
level: with cuts configured it exposes a category level above the raw
value level; every other case uses the base implementation. -/
def get_cubes_levels (d : Dimension) : List CubeLevel :=
  match d.dtype, d.cuts with
  | .raster, some _ =>
      [{ name := "category", attributes := [.plain "category"] },
       { name := d.name, attributes := [.plain PK_COLUMN_NAME, .plain d.name] }]
  | _, _ =>
      [{ name := d.name, attributes := get_cubes_attributes d }]

/-- BaseDimension.get_cubes_hierarchies: one default hierarchy listing the
level names in order. -/
def get_cubes_hierarchies (d : Dimension) : List CubeHierarchy :=
  [{ name := "default"
     levels := (get_cubes_levels d).map (fun l => l.name) }]

/-- Cube descriptor fragment of one dimension
(BaseDimension.get_cubes_dict). -/
structure CubesDimensionDict where
  name : String
  label : String
  description : String
  levels : List CubeLevel
  hierarchies : List CubeHierarchy
deriving DecidableEq, Repr

/-- BaseDimension.get_cubes_dict. -/
def get_cubes_dict (d : Dimension) : CubesDimensionDict :=
  { name := d.name
    label := d.name
    description := get_description d.dtype
    levels := get_cubes_levels d
    hierarchies := get_cubes_hierarchies d }

/-- Deployment settings value NIAMOTO_DIMENSIONS_SCHEMA (the configuration
module is outside src; the claims never depend on the concrete string). -/
def NIAMOTO_DIMENSIONS_SCHEMA : String := "niamoto_dimensions"

/-- Deployment settings value NIAMOTO_FACT_TABLES_SCHEMA. -/
def NIAMOTO_FACT_TABLES_SCHEMA : String := "niamoto_fact_tables"

/-- Aggregate specification forwarded untouched to the cube descriptor. -/
structure Aggregate where
  name : String
  function : String
  measure : String
deriving DecidableEq, Repr

/-- Modelled from the spec for the attribute shape only: BaseFactTable
(missing from src) per the spec holds its name, the ordered referenced
dimensions, and its measure columns; generate_cubes_model reads these as
v.name, v.dimensions and v.columns. -/
structure FactTable where
  name : String
  dimensions : List Dimension
  columns : List SAColumn
deriving DecidableEq, Repr

/-- A cube entry of the generated cubes model. -/
structure CubeDict where
  name : String
  label : String
  dimensions : List String
  measures : List String
  joins : List CubeJoin
  mappings : List (String × String)
  aggregates : List Aggregate
deriving DecidableEq, Repr

/-- The whole cubes model handed to the external analytical engine. -/
structure CubesModel where
  dimensions : List CubesDimensionDict
  cubes : List CubeDict
deriving DecidableEq, Repr

/-- DimensionalModel: insertion-ordered dicts of dimensions, fact tables
and per-fact-table aggregate lists. -/
structure DimensionalModel where
  dimensions : List (String × Dimension)
  fact_tables : List (String × FactTable)
  aggregates : List (String × List Aggregate)

/-- Python dict assignment on the string-to-string mappings dict. -/
def mappingsSet (m : List (String × String)) (k v : String) :
    List (String × String) :=
  if (m.map Prod.fst).contains k then
    m.map (fun p => if p.1 = k then (k, v) else p)
  else
    m ++ [(k, v)]

/-- Accumulation of the mappings dict over the model dimensions: each
dimension name maps to name.id, then the dimension's own extra mappings
are merged in. -/
def accumulate_mappings (dims : List (String × Dimension)) :
    List (String × String) :=
  dims.foldl (fun acc p =>
    (get_cubes_mappings p.2).foldl
      (fun a q => mappingsSet a q.1 q.2)
      (mappingsSet acc p.2.name (p.2.name ++ "." ++ PK_COLUMN_NAME)))
    []

/-- Cube entry generated for one fact table by generate_cubes_model: one
join per referenced dimension linking the fact foreign key column name_id
to the dimension table's id column, followed by the extra joins
accumulated over the model dimensions; the measures are the fact table
column names. -/
def fact_table_cube (joins : List CubeJoin)
    (mappings : List (String × String)) (aggs : List Aggregate)
    (ft : FactTable) : CubeDict :=
  { name := ft.name
    label := ft.name
    dimensions := ft.dimensions.map (fun d => d.name)
    measures := ft.columns.map (fun m => m.name)
    joins := (ft.dimensions.map (fun d =>
      { master :=
          { schema := NIAMOTO_FACT_TABLES_SCHEMA
            table := ft.name
            column := d.name ++ "_id" }
        detail :=
          { schema := NIAMOTO_DIMENSIONS_SCHEMA
            table := d.name
            column := "id" } })) ++ joins
    mappings := mappings
    aggregates := aggs }

/-- Loop over the fact-table dict of generate_cubes_model: a fact table
name absent from the aggregates dict raises KeyError in the source,
modelled as a none result. -/
def build_cubes (joins : List CubeJoin) (mappings : List (String × String))
    (aggregates : List (String × List Aggregate)) :
    List (String × FactTable) → Option (List CubeDict)
  | [] => some []
  | p :: rest =>
      match aggregates.lookup p.1 with
      | none => none
      | some aggs =>
          match build_cubes joins mappings aggregates rest with
          | none => none
          | some cs => some (fact_table_cube joins mappings aggs p.2 :: cs)

/-- DimensionalModel.generate_cubes_model: one descriptor dict per
dimension, the shared extra joins and column mappings accumulated over the
dimensions, then one cube per fact table. -/
def generate_cubes_model (model : DimensionalModel) : Option CubesModel :=
  let dims := model.dimensions.map (fun p => get_cubes_dict p.2)
  let joins :=
    (model.dimensions.map (fun p => get_cubes_joins p.2)).flatten
  let mappings := accumulate_mappings model.dimensions
  match build_cubes joins mappings model.aggregates model.fact_tables with
  | none => none
  | some cs => some { dimensions := dims, cubes := cs }

/-- Membership reading of the catalog inspection. -/
theorem is_created_iff_mem (st : DBState) (d : Dimension) :
    is_created st d = true ↔ d.name ∈ st.tables := by
  simp [is_created]

/-- Creating a dimension makes the catalog contain its table. -/
theorem is_created_create (st : DBState) (d : Dimension) (now : Nat) :
    is_created (create_dimension st d now).1 d = true := by
  by_cases h : d.name ∈ st.tables
  · simp [create_dimension, is_created, h]
  · simp [create_dimension, is_created, h]

/-- After a successful drop, the catalog no longer contains the table and
the registry holds no row with the dimension's name. -/
theorem drop_dimension_removes (st : DBState) (d : Dimension)
    (h : is_created st d = true) :
    is_created (drop_dimension st d).1 d = false
    ∧ d.name ∉ (drop_dimension st d).1.tables
    ∧ ∀ r ∈ (drop_dimension st d).1.dimension_registry, r.name ≠ d.name := by
  have hmem : d.name ∈ st.tables := by simpa [is_created] using h
  refine ⟨?_, ?_, ?_⟩
  · simp [drop_dimension, is_created, hmem, List.mem_filter]
  · simp [drop_dimension, is_created, hmem, List.mem_filter]
  · intro r hr
    simp [drop_dimension, is_created, hmem, List.mem_filter] at hr
    exact hr.2

/-- Concrete dimension used to instantiate the hypothesised theorems. -/
def demoDimension : Dimension :=
  { name := "dim1"
    columns := [⟨"label", .string⟩]
    label_col := "label"
    properties := [("column_labels", .labelsV [])]
    column_labels := []
    dtype := .generic "TEST_DIMENSION" "Test dimension."
    cuts := none }

/-- C1: create_physical_storage (create_dimension) is idempotent and
atomic: when is_created holds it warns and is a no-op, a second creation
leaves schema and registry state identical, otherwise the table creation
and the insertion of the one registry row
(name, type_key, label_column, properties, created_at) land inside a
single transaction, so both commit together or neither does. -/
theorem C1_create_dimension_idempotent_atomic
    (st : DBState) (d : Dimension) (now now2 : Nat)
    (table_create_ok insert_ok : Bool) :
    (is_created st d = true → create_dimension st d now = (st, true))
    ∧ create_dimension (create_dimension st d now).1 d now2
        = ((create_dimension st d now).1, true)
    ∧ (is_created st d = false →
        (create_dimension st d now).1 =
          { tables := st.tables ++ [d.name]
            dimension_registry := st.dimension_registry ++
              [{ name := d.name
                 dimension_type_key := get_key d.dtype
                 label_column := d.label_col
                 date_create := now
                 properties := d.properties }] })
    ∧ (create_dimension_tx st d now table_create_ok insert_ok = st ∨
       create_dimension_tx st d now table_create_ok insert_ok
         = (create_dimension st d now).1) := by
  refine ⟨?_, ?_, ?_, ?_⟩
  · intro h
    have hmem : d.name ∈ st.tables := by simpa [is_created] using h
    simp [create_dimension, is_created, hmem]
  · by_cases h : d.name ∈ st.tables
    · simp [create_dimension, is_created, h]
    · simp [create_dimension, is_created, h]
  · intro h
    have hmem : d.name ∉ st.tables := by simpa [is_created] using h
    simp [create_dimension, is_created, hmem]
  · by_cases h : d.name ∈ st.tables
    · left; simp [create_dimension_tx, is_created, h]
    · by_cases hok : table_create_ok && insert_ok
      · right; simp [create_dimension_tx, is_created, h, hok]
      · left; simp [create_dimension_tx, is_created, h, hok]

/-- Witness for C1: creating the demo dimension on a state already holding
its table is a warned no-op. -/
theorem C1_witness :
    create_dimension ⟨["dim1"], []⟩ demoDimension 5
      = (⟨["dim1"], []⟩, true) :=
  (C1_create_dimension_idempotent_atomic ⟨["dim1"], []⟩ demoDimension
    5 6 true true).1 (by decide)

/-- C2: drop_physical_storage (drop_dimension) after create removes both
the physical table and the registry row in one transaction, after which
is_created returns false; dropping an absent dimension warns and no-ops. -/
theorem C2_drop_after_create
    (st : DBState) (d : Dimension) (now : Nat)
    (table_drop_ok delete_ok : Bool) :
    (is_created st d = false → drop_dimension st d = (st, true))
    ∧ is_created
        (drop_dimension (create_dimension st d now).1 d).1 d = false
    ∧ d.name ∉ (drop_dimension (create_dimension st d now).1 d).1.tables
    ∧ (∀ r ∈ (drop_dimension
          (create_dimension st d now).1 d).1.dimension_registry,
        r.name ≠ d.name)
    ∧ (drop_dimension_tx st d table_drop_ok delete_ok = st ∨
       drop_dimension_tx st d table_drop_ok delete_ok
         = (drop_dimension st d).1) := by
  have hc := is_created_create st d now
  have hrem := drop_dimension_removes (create_dimension st d now).1 d hc
  refine ⟨?_, hrem.1, hrem.2.1, hrem.2.2, ?_⟩
  · intro h
    have hmem : d.name ∉ st.tables := by simpa [is_created] using h
    simp [drop_dimension, is_created, hmem]
  · by_cases h : d.name ∈ st.tables
    · by_cases hok : table_drop_ok && delete_ok
      · right; simp [drop_dimension_tx, is_created, h, hok]
      · left; simp [drop_dimension_tx, is_created, h, hok]
    · left; simp [drop_dimension_tx, is_created, h]

/-- Witness for C2: dropping the demo dimension on an empty state is a
warned no-op. -/
theorem C2_witness :
    drop_dimension ⟨[], []⟩ demoDimension = (⟨[], []⟩, true) :=
  (C2_drop_after_create ⟨[], []⟩ demoDimension 5 true true).1 (by decide)

/-- C3: in populate, every null cell of the input batch is replaced before
loading by the sentinel of its column type: the declared textual types get
the literal string NS, the numeric type gets the not-a-number marker, and
every type with no declared sentinel gets the not-a-number marker. -/
theorem C3_populate_null_sentinels
    (cols : List SAColumn) (df : DataFrame) (append_ns_row : Bool)
    (r : Row) (hr : r ∈ df) (i : Nat) (hi : i < cols.length)
    (hnull : cellValue r cols[i].name = none) :
    fillRow cols r ∈ populate_csv cols df append_ns_row
    ∧ (fillRow cols r).2[i]? = some (nsValue cols[i].type)
    ∧ (∀ t : SAType,
        t = .varchar ∨ t = .text ∨ t = .string → nsValue t = .str "NS")
    ∧ nsValue .numeric = .nan
    ∧ (∀ t : SAType, NS_VALUES t = none → nsValue t = DEFAULT_NS_VALUE) := by
  refine ⟨?_, ?_, ?_, ?_, ?_⟩
  · have hmain : fillRow cols r ∈ df.map (fillRow cols) :=
      List.mem_map_of_mem (fillRow cols) hr
    cases append_ns_row with
    | false => simpa [populate_csv] using hmain
    | true =>
        simp only [populate_csv]
        exact List.mem_append_left _ hmain
  · have hstep : (fillRow cols r).2[i]?
        = some (match cellValue r cols[i].name with
          | some v => v
          | none => nsValue cols[i].type) := by
      simp [fillRow, List.getElem?_map, List.getElem?_eq_getElem hi]
    rw [hstep, hnull]
  · rintro t (rfl | rfl | rfl) <;> rfl
  · rfl
  · intro t ht
    simp [nsValue, ht]

/-- Witness for C3: a one-row batch with a null label cell serializes the
label column to the NS string. -/
theorem C3_witness :
    fillRow [⟨"label", SAType.string⟩] ⟨0, [("label", none)]⟩
        ∈ populate_csv [⟨"label", SAType.string⟩]
            [⟨0, [("label", none)]⟩] true
    ∧ (fillRow [⟨"label", SAType.string⟩] ⟨0, [("label", none)]⟩).2[0]?
        = some (nsValue SAType.string) := by
  have h := C3_populate_null_sentinels [⟨"label", SAType.string⟩]
    [⟨0, [("label", none)]⟩] true ⟨0, [("label", none)]⟩
    (by decide) 0 (by decide) (by decide)
  exact ⟨h.1, h.2.1⟩

/-- Bool test of the C4 wording against the code on a dimension table that
already holds a row with key 10 and an empty input batch: the claim
predicts key 11 for the synthetic row, the code appends key 0. -/
theorem C4_counterexample :
    ns_key_claim_check [(10, [Value.str "x"])]
      [⟨"label", SAType.string⟩] [] = false := by decide

/-- C4 as amended: populate with append_ns_row appends exactly one
synthetic row, after the serialized batch, whose every non-key column is
that column's sentinel and whose surrogate key is one greater than the
maximum index of the input batch, or 0 when the batch is empty (the code
never consults the dimension's existing keys). -/
theorem C4_amended_ns_row (cols : List SAColumn) (df : DataFrame) :
    ∃ ns_row : Int × List Value,
      populate_csv cols df true = populate_csv cols df false ++ [ns_row]
      ∧ ns_row.2 = cols.map (fun c => nsValue c.type)
      ∧ ns_row.1 = (if df = [] then 0
          else indexMax (df.map (fun r => r.idx)) + 1) := by
  refine ⟨((if df.length > 0 then
      indexMax (df.map (fun r => r.idx)) + 1 else 0),
    cols.map (fun c => nsValue c.type)), ?_, rfl, ?_⟩
  · simp [populate_csv]
  · cases df with
    | nil => simp
    | cons a l => simp

/-- C10: populate streams the caller's dataframe index as the surrogate
primary-key column: the COPY column list begins with the primary key name
id, and the keys of the loaded rows are exactly the batch's index values,
with the synthetic row's key derived from the batch index maximum. -/
theorem C10_surrogate_keys_from_index
    (cols : List SAColumn) (df : DataFrame)
    (rows : List (Int × List Value)) :
    populate_copy_columns cols
        = PK_COLUMN_NAME :: cols.map (fun c => c.name)
    ∧ PK_COLUMN_NAME = "id"
    ∧ (populate_csv cols df false).map Prod.fst
        = df.map (fun r => r.idx)
    ∧ (populate_csv cols df true).map Prod.fst
        = df.map (fun r => r.idx) ++
          [if df.length > 0 then
            indexMax (df.map (fun r => r.idx)) + 1 else 0]
    ∧ populate_table rows cols df true
        = rows ++ populate_csv cols df true := by
  refine ⟨rfl, rfl, ?_, ?_, rfl⟩
  · simp [populate_csv, fillRow, List.map_map, Function.comp]
  · simp [populate_csv, fillRow, List.map_map, Function.comp]

/-- C5 evaluation at the failing input: loading the name unknown on an
empty registry ends in the TypeError of unpacking a None fetchone result,
not in DimensionNotRegisteredError. -/
theorem C5_load_unknown_raises_type_error :
    get_dimension ⟨[], []⟩ "unknown" = .error .typeError := rfl

/-- Cut-points configured for the raster dimension of the C6 failing
input. -/
def c6cuts : Cuts :=
  { points := [10, 20, 30]
    labels := ["low", "medium", "high", "very high"] }

/-- Registry row of the C6 failing input: a registered raster dimension
whose persisted properties carry configured bucket cut-points. -/
def c6row : RegistryRow :=
  { name := "rainfall"
    dimension_type_key := "RASTER_DIMENSION"
    label_column := "rainfall"
    date_create := 0
    properties := [("cuts", .cutsV c6cuts)] }

/-- C6 evaluation at the failing input: get_dimension never forwards the
persisted properties to the loader, so the reconstructed raster dimension
loses its configured cut-points (cuts = none, no category column), while
the loader itself, handed the persisted properties, would preserve them. -/
theorem C6_load_drops_persisted_properties :
    ((get_dimension ⟨["rainfall"], [c6row]⟩ "rainfall").toOption.map
        (fun d => (d.cuts, d.columns.length))) = some (none, 2)
    ∧ ((RasterDimension.load "rainfall" "rainfall" c6row.properties).toOption.map
        (fun d => (d.cuts, d.columns.length))) = some (some c6cuts, 3) := by
  exact ⟨rfl, rfl⟩

/-- When some referenced name has no registry row, the sequential
registration check aborts with DimensionNotRegisteredError for the first
unregistered name it meets. -/
theorem assert_all_registered_error (st : DBState) (names : List String)
    (n : String) (hn : n ∈ names)
    (hreg : (st.dimension_registry.filter
        (fun r => r.name = n)).length = 0) :
    ∃ m, assert_all_registered st names
      = .error (.dimensionNotRegistered m) := by
  induction names with
  | nil => cases hn
  | cons a rest ih =>
      by_cases ha : (st.dimension_registry.filter
          (fun r => r.name = a)).length = 0
      · exact ⟨a, by
          simp [assert_all_registered, assert_dimension_is_registered, ha]⟩
      · have hna : n ≠ a := fun h => ha (h ▸ hreg)
        have hmem : n ∈ rest := by
          rcases List.mem_cons.mp hn with h | h
          · exact absurd h hna
          · exact h
        obtain ⟨m, hm⟩ := ih hmem
        exact ⟨m, by
          simp [assert_all_registered, assert_dimension_is_registered,
            ha, hm]⟩

/-- C7: creating a fact table referencing an unregistered dimension name
fails with DimensionNotRegistered and performs no DDL (the state is left
untouched); the registered-dimension check raises exactly when zero
registry rows match the name. -/
theorem C7_fact_table_requires_registered_dimensions
    (st : MartState) (name : String) (dimension_names : List String)
    (now : Nat) (n : String) (hn : n ∈ dimension_names)
    (hreg : (st.dims.dimension_registry.filter
        (fun r => r.name = n)).length = 0) :
    (∃ m, (create_fact_table st name dimension_names now).2
        = some (.dimensionNotRegistered m))
    ∧ (create_fact_table st name dimension_names now).1 = st
    ∧ ∀ (st2 : DBState) (n2 : String),
        assert_dimension_is_registered st2 n2
            = .error (.dimensionNotRegistered n2)
          ↔ (st2.dimension_registry.filter
              (fun r => r.name = n2)).length = 0 := by
  obtain ⟨m, hm⟩ :=
    assert_all_registered_error st.dims dimension_names n hn hreg
  refine ⟨⟨m, ?_⟩, ?_, ?_⟩
  · simp [create_fact_table, hm]
  · simp [create_fact_table, hm]
  · intro st2 n2
    constructor
    · intro h
      by_cases h0 : (st2.dimension_registry.filter
          (fun r => r.name = n2)).length = 0
      · exact h0
      · simp [assert_dimension_is_registered, h0] at h
    · intro h0
      simp [assert_dimension_is_registered, h0]

/-- Witness for C7: creating a fact table over the single unregistered
name d1 on an empty mart errors and leaves the state untouched. -/
theorem C7_witness :
    (∃ m, (create_fact_table ⟨⟨[], []⟩, [], []⟩ "fact" ["d1"] 0).2
        = some (.dimensionNotRegistered m))
    ∧ (create_fact_table ⟨⟨[], []⟩, [], []⟩ "fact" ["d1"] 0).1
        = ⟨⟨[], []⟩, [], []⟩ := by
  have h := C7_fact_table_requires_registered_dimensions
    ⟨⟨[], []⟩, [], []⟩ "fact" ["d1"] 0 "d1" (by decide) (by decide)
  exact ⟨h.1, h.2.1⟩

/-- C8: a raster dimension with configured cut-points (N points, N+1
labels) carries a derived category column and its cube fragment exposes
the category level above the raw value level; population always forwards
the configured cut-points to the data source; without cut-points the
fragment exposes a single level. -/
theorem C8_raster_cuts_category_level (raster_name : String) (c : Cuts)
    (h : c.labels.length = c.points.length + 1) :
    (∃ d, RasterDimension.init raster_name (some c) = .ok d
      ∧ SAColumn.mk "category" .string ∈ d.columns
      ∧ get_cubes_levels d
          = [{ name := "category", attributes := [.plain "category"] },
             { name := raster_name
               attributes := [.plain PK_COLUMN_NAME,
                 .plain raster_name] }]
      ∧ raster_publisher_args d = (raster_name, some c))
    ∧ ∀ d0, RasterDimension.init raster_name none = .ok d0 →
        (get_cubes_levels d0).length = 1
        ∧ raster_publisher_args d0 = (raster_name, none) := by
  constructor
  · refine ⟨BaseDimension.init raster_name
      [⟨raster_name, .float⟩, ⟨"pixel_count", .integer⟩,
       ⟨"category", .string⟩]
      raster_name [("cuts", .cutsV c)] [] .raster (some c), ?_, ?_, ?_, ?_⟩
    · simp [RasterDimension.init, h]
    · simp [BaseDimension.init]
    · simp [get_cubes_levels, BaseDimension.init]
    · simp [raster_publisher_args, BaseDimension.init]
  · intro d0 h0
    have hd : d0 = BaseDimension.init raster_name
        [⟨raster_name, .float⟩, ⟨"pixel_count", .integer⟩]
        raster_name [] [] .raster none := by
      simpa [RasterDimension.init] using h0.symm
    subst hd
    exact ⟨by simp [get_cubes_levels, BaseDimension.init],
      by simp [raster_publisher_args, BaseDimension.init]⟩

/-- Witness for C8: the three-cut four-label configuration yields the
category column and the forwarded cut-points. -/
theorem C8_witness :
    ∃ d, RasterDimension.init "rain" (some c6cuts) = .ok d
      ∧ SAColumn.mk "category" .string ∈ d.columns
      ∧ raster_publisher_args d = ("rain", some c6cuts) := by
  obtain ⟨⟨d, hd, hcol, _, hargs⟩, _⟩ :=
    C8_raster_cuts_category_level "rain" c6cuts (by decide)
  exact ⟨d, hd, hcol, hargs⟩

/-- C9: on a model with one dimension D and one fact table F referencing D
with the single measure m1, the generated cube descriptor holds exactly
one cube, with exactly one join from the fact foreign key column D_id to
the dimension's id column, and the measures list is exactly m1. -/
theorem C9_single_join_single_measure
    (D : Dimension) (fname : String) (ags : List Aggregate) :
    ∃ cm, generate_cubes_model
        { dimensions := [(D.name, D)]
          fact_tables := [(fname,
            { name := fname, dimensions := [D],
              columns := [⟨"m1", .float⟩] })]
          aggregates := [(fname, ags)] } = some cm
      ∧ cm.cubes.length = 1
      ∧ ∀ cube ∈ cm.cubes,
          cube.joins
              = [{ master := { schema := NIAMOTO_FACT_TABLES_SCHEMA
                               table := fname
                               column := D.name ++ "_id" }
                   detail := { schema := NIAMOTO_DIMENSIONS_SCHEMA
                               table := D.name
                               column := "id" } }]
          ∧ cube.measures = ["m1"] := by
  refine ⟨{ dimensions := [get_cubes_dict D]
            cubes := [fact_table_cube [] (accumulate_mappings [(D.name, D)])
              ags { name := fname, dimensions := [D],
                    columns := [⟨"m1", .float⟩] }] }, ?_, by simp, ?_⟩
  · simp [generate_cubes_model, build_cubes, List.lookup,
      get_cubes_joins]
  · intro cube hcube
    simp only [List.mem_singleton] at hcube
    subst hcube
    exact ⟨by simp [fact_table_cube], by simp [fact_table_cube]⟩

/-- Witness for C9: a concrete one-dimension one-fact-table model. -/
theorem C9_witness :
    ∃ cm, generate_cubes_model
        { dimensions := [("dim1", demoDimension)]
          fact_tables := [("fact",
            { name := "fact", dimensions := [demoDimension],
              columns := [⟨"m1", .float⟩] })]
          aggregates := [("fact", [])] } = some cm
      ∧ cm.cubes.length = 1 := by
  obtain ⟨cm, hcm, hlen, _⟩ :=
    C9_single_join_single_measure demoDimension "fact" []
  exact ⟨cm, hcm, hlen⟩

end Niamoto
